import Mathlib

/-
  Verification development for the CDC subscriber (src/main.py).

  The repository is a single Flask endpoint that receives Pub/Sub push
  messages carrying Debezium change events and applies them to a BigQuery
  table.  We embed the handler `index` and the query builders
  `run_bq_delete` / `run_bq_merge` as pure Lean functions over a JSON value
  model, recording the externally visible effects (warehouse queries issued,
  dead-letter writes) in an explicit effect list.  The byte-level external
  calls (base64 decoding, json parsing, the BigQuery client) are modelled by
  explicit outcome parameters; everything the Python control flow decides is
  translated directly from the source.
-/

namespace CDC

/-- JSON values as produced by Python's json.loads: null, booleans, numbers
(modelled as integers; the events in scope carry integer ids), strings,
arrays and objects (a list of key-value entries with unique keys, the shape
json.loads yields for a JSON object). -/
inductive Json where
  | null : Json
  | bool : Bool → Json
  | num : Int → Json
  | str : String → Json
  | arr : List Json → Json
  | obj : List (String × Json) → Json

/-- Dictionary lookup, modelling Python's dict access/`.get` on the entries
of a parsed JSON object (keys are unique after json.loads). -/
def lookupField (fields : List (String × Json)) (key : String) : Option Json :=
  match fields with
  | [] => none
  | (k, v) :: rest => if k == key then some v else lookupField rest key

/-- Subscripting `data[key]`: succeeds only when the value is a dict having
the key; a missing key (KeyError) and a non-dict value (TypeError) both
surface as an exception in Python, so both map to `none` here. -/
def Json.getField : Json → String → Option Json
  | .obj fs, k => lookupField fs k
  | _, _ => none

/-- Python truthiness of a parsed JSON value (`not data`): None, False, 0,
empty string, empty list and empty dict are falsy. -/
def Json.truthy : Json → Bool
  | .null => false
  | .bool b => b
  | .num n => !(n == 0)
  | .str s => !(s == "")
  | .arr xs => !xs.isEmpty
  | .obj fs => !fs.isEmpty

/-- Truthiness of a `dict.get` result: a missing key yields None, which is
falsy. -/
def truthyO : Option Json → Bool
  | none => false
  | some v => v.truthy

/-- The comparison `op == "d"` from src/main.py line 53/61: only the JSON
string "d" compares equal; None and non-string values do not. -/
def isOpD : Option Json → Bool
  | some (.str s) => s == "d"
  | _ => false

mutual

/-- Python repr() of a parsed JSON value, used by str() on lists/dicts. -/
def pyRepr : Json → String
  | .null => "None"
  | .bool true => "True"
  | .bool false => "False"
  | .num n => toString n
  | .str s => "\x27" ++ s ++ "\x27"
  | .arr xs => "[" ++ pyReprList xs ++ "]"
  | .obj fs => "\x7b" ++ pyReprFields fs ++ "\x7d"

/-- Comma-separated reprs of the elements of a Python list. -/
def pyReprList : List Json → String
  | [] => ""
  | [x] => pyRepr x
  | x :: xs => pyRepr x ++ ", " ++ pyReprList xs

/-- Comma-separated reprs of the entries of a Python dict. -/
def pyReprFields : List (String × Json) → String
  | [] => ""
  | [(k, v)] => "\x27" ++ k ++ "\x27: " ++ pyRepr v
  | (k, v) :: fs => "\x27" ++ k ++ "\x27: " ++ pyRepr v ++ ", " ++ pyReprFields fs

end

/-- Python str() of a parsed JSON value, as an f-string interpolation
renders it: strings are inserted verbatim (no quotes), everything else as
its repr. -/
def pyStr : Json → String
  | .str s => s
  | v => pyRepr v

/-- Classification of a warehouse failure, per the spec's error taxonomy.
The Python code does not inspect this: every failure raised by
`bq_client.query(...).result()` is an Exception caught by the blanket
handler. -/
inductive WhErr where
  | transient : WhErr
  | permanent : WhErr
  | internal : WhErr

/-- Externally visible effects of one request: warehouse queries issued via
`bq_client.query(query).result()`, and writes to a dead-letter sink.  The
source contains no dead-letter sink, so the embedded handler never emits a
`deadLetter` effect; the constructor exists so that the spec's dead-letter
claims can be stated. -/
inductive Effect where
  | query : String → Effect
  | deadLetter : String → Effect

instance : DecidableEq Effect := fun a b => by
  cases a <;> cases b <;> first
    | (apply isFalse; intro h; exact Effect.noConfusion h)
    | (rename_i s t
       exact if h : s = t then isTrue (by rw [h]) else
         isFalse (fun hc => h (by cases hc; rfl)))

/-- Result of one request: HTTP status, response body, and the effects
performed while handling it. -/
structure HandlerResult where
  status : Nat
  body : String
  effects : List Effect
deriving DecidableEq

/-- Outcome of decoding `envelope["message"]["data"]` (src/main.py lines
39-41): the base64/utf-8 decode and dict subscripting may raise a generic
exception, json.loads may raise JSONDecodeError, or a JSON document is
produced.  The in-scope documents are JSON objects (Debezium envelopes);
`ok` carries the object's entries. -/
inductive DecodeOutcome where
  | decodeErr : DecodeOutcome
  | jsonErr : DecodeOutcome
  | ok : List (String × Json) → DecodeOutcome

/-- The DELETE query text built at src/main.py lines 82-85 by f-string
interpolation of TABLE_ID and the row's id value. -/
def deleteQueryStr (tableId : String) (pk : Json) : String :=
  "\n        DELETE FROM `" ++ tableId ++ "`\n        WHERE id = " ++ pyStr pk ++ "\n    "

/-- The MERGE query text built at src/main.py lines 92-109 by f-string
interpolation of TABLE_ID and the row's id, first_name, last_name and email
values (the three name/email values are wrapped in single quotes in the
query text). -/
def mergeQueryStr (tableId : String) (i fn ln em : Json) : String :=
  "\n        MERGE `" ++ tableId ++ "` T\n        USING (SELECT\n            " ++
    pyStr i ++ " as id,\n            \x27" ++ pyStr fn ++
    "\x27 as first_name,\n            \x27" ++ pyStr ln ++
    "\x27 as last_name,\n            \x27" ++ pyStr em ++
    "\x27 as email\n        ) S\n        ON T.id = S.id\n" ++
    "        WHEN MATCHED THEN\n            UPDATE SET\n" ++
    "                first_name = S.first_name,\n" ++
    "                last_name = S.last_name,\n" ++
    "                email = S.email\n" ++
    "        WHEN NOT MATCHED THEN\n" ++
    "            INSERT (id, first_name, last_name, email)\n" ++
    "            VALUES (S.id, S.first_name, S.last_name, S.email)\n    "

/-- run_bq_delete (src/main.py lines 79-88): reads data["id"] (an exception
on a missing key or non-dict data propagates to the blanket handler, giving
200), builds the DELETE query by interpolation, and runs it; a failure of
the warehouse call likewise gives 200.  `wh` models
`bq_client.query(q).result()`. -/
def run_bq_delete (tableId : String) (data : Json)
    (wh : String → Except WhErr Unit) : HandlerResult :=
  match data.getField "id" with
  | none => ⟨200, "Message processing error", []⟩
  | some pk =>
    match wh (deleteQueryStr tableId pk) with
    | .ok _ => ⟨204, "", [.query (deleteQueryStr tableId pk)]⟩
    | .error _ => ⟨200, "Message processing error", [.query (deleteQueryStr tableId pk)]⟩

/-- run_bq_merge (src/main.py lines 90-112): reads data["id"],
data["first_name"], data["last_name"], data["email"] (a missing key or
non-dict data raises, reaching the blanket handler: 200 and no query),
builds the MERGE query by interpolation, and runs it; a warehouse failure
gives 200. -/
def run_bq_merge (tableId : String) (data : Json)
    (wh : String → Except WhErr Unit) : HandlerResult :=
  match data.getField "id", data.getField "first_name",
        data.getField "last_name", data.getField "email" with
  | some i, some fn, some ln, some em =>
    match wh (mergeQueryStr tableId i fn ln em) with
    | .ok _ => ⟨204, "", [.query (mergeQueryStr tableId i fn ln em)]⟩
    | .error _ =>
      ⟨200, "Message processing error", [.query (mergeQueryStr tableId i fn ln em)]⟩
  | _, _, _, _ => ⟨200, "Message processing error", []⟩

/-- Line 53 of src/main.py: the row data for the operation, `after` for
create/update (any op other than the string "d"), `before` for delete. -/
def payloadData (pf : List (String × Json)) : Option Json :=
  if isOpD (lookupField pf "op") then lookupField pf "before"
  else lookupField pf "after"

/-- Lines 49-66 of src/main.py: extract op with payload.get("op"), pick
after for create/update and before for delete, ignore with 204 when either
is missing/falsy, otherwise dispatch to delete or merge. -/
def handlePayload (tableId : String) (pf : List (String × Json))
    (wh : String → Except WhErr Unit) : HandlerResult :=
  if !truthyO (payloadData pf) || !truthyO (lookupField pf "op") then ⟨204, "", []⟩
  else if isOpD (lookupField pf "op") then
    run_bq_delete tableId ((payloadData pf).getD Json.null) wh
  else run_bq_merge tableId ((payloadData pf).getD Json.null) wh

/-- Lines 45-66 of src/main.py applied to the parsed document: a document
without a "payload" key is acknowledged and ignored (204); a payload that is
not a dict makes payload.get raise (blanket handler: 200); otherwise the
payload is processed. -/
def handleDoc (tableId : String) (fields : List (String × Json))
    (wh : String → Except WhErr Unit) : HandlerResult :=
  match lookupField fields "payload" with
  | none => ⟨204, "", []⟩
  | some (.obj pf) => handlePayload tableId pf wh
  | some _ => ⟨200, "Message processing error", []⟩

/-- The request handler index (src/main.py lines 20-77), restricted to the
bodies of the Pub/Sub push contract: `env` is the parsed request body from
request.get_json(), given as a JSON object's entries, or `none` for a
missing body.  On this domain the embedding is exact; indexAnyBody below
extends it to arbitrary parsed bodies (numbers, strings, lists, ...), and
the agreement lemmas indexAnyBody_obj_restriction/none_restriction show
this function is its restriction.  `clientOk` is false when module
initialization left bq_client = None; `decoded` is the outcome of
base64+json decoding the message data; `wh` models the BigQuery query call.
Exceptions raised inside the try block are caught: json.JSONDecodeError and
the blanket `except Exception` both return ("Message processing error",
200). -/
def index (tableId : String) (clientOk : Bool)
    (env : Option (List (String × Json))) (decoded : DecodeOutcome)
    (wh : String → Except WhErr Unit) : HandlerResult :=
  if clientOk = false then ⟨200, "BigQuery client not initialized", []⟩
  else
    match env with
    | none => ⟨400, "Bad Request: No Pub/Sub message received", []⟩
    | some e =>
      if e.isEmpty || (lookupField e "message").isNone then
        ⟨400, "Bad Request: No Pub/Sub message received", []⟩
      else
        match decoded with
        | .decodeErr => ⟨200, "Message processing error", []⟩
        | .jsonErr => ⟨200, "Message processing error", []⟩
        | .ok fields => handleDoc tableId fields wh

/-- The 400 condition of lines 32-35 restricted to object-or-absent bodies:
no body, an empty (falsy) object, or no "message" key.  (Truthy non-object
bodies behave differently — see envBad and envRaises below.) -/
def envInvalid : Option (List (String × Json)) → Bool
  | none => true
  | some e => e.isEmpty || (lookupField e "message").isNone

/-- Whether a Python string contains "message" as a substring, the test
`"message" in envelope` performs when the parsed body is a string: splitOn
yields more than one piece exactly when the separator occurs. -/
def strContainsMessage (s : String) : Bool :=
  (s.splitOn "message").length != 1

/-- Whether a Python list element compares equal to the string "message",
the element test `"message" in envelope` performs when the parsed body is a
list. -/
def isMessageStr : Json → Bool
  | .str s => s == "message"
  | _ => false

/-- The membership test `"message" in envelope` of line 33 on a truthy
parsed body: key lookup for a dict, substring search for a string, element
equality for a list; `none` models the TypeError Python raises for numbers
and booleans (which, being outside the try block, escapes the handler). -/
def pyInMessage : Json → Option Bool
  | .obj fs => some ((lookupField fs "message").isSome)
  | .str s => some (strContainsMessage s)
  | .arr xs => some (xs.any isMessageStr)
  | _ => none

/-- Outcome of one request at the WSGI boundary: a response built by the
handler, or an exception escaping the view function (Flask then answers
500 and the push transport redelivers the message). -/
inductive HttpOutcome where
  | resp : HandlerResult → HttpOutcome
  | uncaught : HttpOutcome

/-- The request handler over an arbitrary parsed body (the unrestricted
model of src/main.py lines 20-77).  A falsy body gives 400; a truthy
number/boolean body makes the line-33 membership test raise outside the try
block (uncaught, so the server answers 500); a truthy string/list body
containing "message" passes the guard and then `envelope["message"]` raises
a TypeError inside the try block (caught: 200); an object body proceeds as
in `index`. -/
def indexAnyBody (tableId : String) (clientOk : Bool) (env : Option Json)
    (decoded : DecodeOutcome) (wh : String → Except WhErr Unit) : HttpOutcome :=
  if clientOk = false then .resp ⟨200, "BigQuery client not initialized", []⟩
  else
    match env with
    | none => .resp ⟨400, "Bad Request: No Pub/Sub message received", []⟩
    | some v =>
      if v.truthy = false then
        .resp ⟨400, "Bad Request: No Pub/Sub message received", []⟩
      else
        match pyInMessage v with
        | none => .uncaught
        | some false => .resp ⟨400, "Bad Request: No Pub/Sub message received", []⟩
        | some true =>
          match v with
          | .obj _ =>
            match decoded with
            | .decodeErr => .resp ⟨200, "Message processing error", []⟩
            | .jsonErr => .resp ⟨200, "Message processing error", []⟩
            | .ok fields => .resp (handleDoc tableId fields wh)
          | _ => .resp ⟨200, "Message processing error", []⟩

/-- The parsed bodies whose line-33 membership test raises outside the try
block: truthy numbers and the boolean True. -/
def envRaises : Option Json → Bool
  | some (.num n) => !(n == 0)
  | some (.bool b) => b
  | _ => false

/-- The 400 condition of lines 32-35 over arbitrary parsed bodies: a missing
or falsy body, or a truthy body whose membership test runs and reports
"message" absent (as object key, string substring, or list element). -/
def envBad : Option Json → Bool
  | none => true
  | some v =>
    if v.truthy = false then true
    else
      match pyInMessage v with
      | some false => true
      | _ => false

/-- Shape of every outcome at the WSGI boundary: either an exception
escaped, or the response is 204 with an empty body, 400 with a non-empty
body, or 200 with a non-empty body. -/
def anyShapes (o : HttpOutcome) : Prop :=
  o = HttpOutcome.uncaught ∨
  ∃ r, o = HttpOutcome.resp r ∧
    (r.status = 204 ∧ r.body = "" ∨ r.status = 400 ∧ r.body ≠ ""
      ∨ r.status = 200 ∧ r.body ≠ "")

/-- A row of the target customers table, with the four columns the MERGE
statement of run_bq_merge reads and writes. -/
structure Row where
  id : Int
  first_name : String
  last_name : String
  email : String
deriving DecidableEq

/-- The warehouse table: its rows, in storage order. -/
abbrev Table := List Row

/-- The UPDATE arm of the MERGE statement: a row matching on id gets its
first_name, last_name and email set from the source row; others are kept. -/
def mergeRowUpdate (r x : Row) : Row :=
  if x.id == r.id then
    { x with first_name := r.first_name, last_name := r.last_name, email := r.email }
  else x

/-- Effect of the MERGE statement mergeQueryStr builds, on the customers
table, for row values that do not contain quote characters (so the
interpolated text parses as the intended statement): when some row matches
on id, UPDATE sets its first_name, last_name and email from the source row;
when none matches, INSERT adds the row. -/
def mergeApply (r : Row) (t : Table) : Table :=
  if t.any (fun x => x.id == r.id) then t.map (mergeRowUpdate r)
  else t ++ [r]

/-- Effect of the DELETE statement deleteQueryStr builds, on the customers
table, for a key value that is a plain integer: every row whose id equals
the key is removed; deleting when no row matches succeeds and changes
nothing. -/
def deleteApply (pk : Int) (t : Table) : Table :=
  t.filter (fun x => !(x.id == pk))

/-- Whether an effect is a dead-letter write. -/
def isDeadLetter : Effect → Bool
  | .deadLetter _ => true
  | .query _ => false

/-- The possible results of the processing stages inside the try block:
acknowledged-and-ignored, an error caught before any warehouse call, a
successful warehouse call, or a failed warehouse call. -/
def procShapes (r : HandlerResult) : Prop :=
  r = ⟨204, "", []⟩ ∨
  r = ⟨200, "Message processing error", []⟩ ∨
  (∃ q, r = ⟨204, "", [Effect.query q]⟩) ∨
  (∃ q, r = ⟨200, "Message processing error", [Effect.query q]⟩)

/-- The possible results of the whole handler: the uninitialized-client
response, the bad-request response, or one of the processing results. -/
def resultShapes (r : HandlerResult) : Prop :=
  r = ⟨200, "BigQuery client not initialized", []⟩ ∨
  r = ⟨400, "Bad Request: No Pub/Sub message received", []⟩ ∨
  procShapes r

/-- A well-formed push envelope: an object with a "message" key whose
value carries the base64 data field. -/
def sampleEnv : List (String × Json) :=
  [("message", Json.obj [("data", Json.str "ZXZlbnQ=")])]

/-- Row data of the spec's section 8 create scenario. -/
def sampleAfter : Json :=
  Json.obj [("id", Json.num 1), ("first_name", Json.str "A"),
    ("last_name", Json.str "B"), ("email", Json.str "a@b.com")]

/-- The spec's section 8 create scenario document:
op "c" with an after image. -/
def sampleCreateDoc : List (String × Json) :=
  [("payload", Json.obj [("op", Json.str "c"), ("after", sampleAfter)])]

/-- The spec's section 8 delete scenario document:
op "d" with a before image carrying the key. -/
def sampleDeleteDoc : List (String × Json) :=
  [("payload", Json.obj [("op", Json.str "d"),
    ("before", Json.obj [("id", Json.num 1)])])]

/-- A document whose payload is missing the op key (spec section 8
dead-letter scenario). -/
def missingOpDoc : List (String × Json) :=
  [("payload", Json.obj [("after", Json.obj [("id", Json.num 1)])])]

theorem run_bq_delete_shapes (tableId : String) (d : Json)
    (wh : String → Except WhErr Unit) : procShapes (run_bq_delete tableId d wh) := by
  unfold procShapes run_bq_delete
  split
  · exact Or.inr (Or.inl rfl)
  · split
    · exact Or.inr (Or.inr (Or.inl ⟨_, rfl⟩))
    · exact Or.inr (Or.inr (Or.inr ⟨_, rfl⟩))

theorem run_bq_merge_shapes (tableId : String) (d : Json)
    (wh : String → Except WhErr Unit) : procShapes (run_bq_merge tableId d wh) := by
  unfold procShapes run_bq_merge
  split
  · split
    · exact Or.inr (Or.inr (Or.inl ⟨_, rfl⟩))
    · exact Or.inr (Or.inr (Or.inr ⟨_, rfl⟩))
  · exact Or.inr (Or.inl rfl)

theorem handlePayload_shapes (tableId : String) (pf : List (String × Json))
    (wh : String → Except WhErr Unit) : procShapes (handlePayload tableId pf wh) := by
  unfold handlePayload
  split
  · exact Or.inl rfl
  · split
    · exact run_bq_delete_shapes tableId _ wh
    · exact run_bq_merge_shapes tableId _ wh

theorem handleDoc_shapes (tableId : String) (fields : List (String × Json))
    (wh : String → Except WhErr Unit) : procShapes (handleDoc tableId fields wh) := by
  unfold handleDoc
  split
  · exact Or.inl rfl
  · exact handlePayload_shapes tableId _ wh
  · exact Or.inr (Or.inl rfl)

theorem index_shapes (tableId : String) (clientOk : Bool)
    (env : Option (List (String × Json))) (decoded : DecodeOutcome)
    (wh : String → Except WhErr Unit) :
    resultShapes (index tableId clientOk env decoded wh) := by
  unfold resultShapes index
  split
  · exact Or.inl rfl
  · split
    · exact Or.inr (Or.inl rfl)
    · split
      · exact Or.inr (Or.inl rfl)
      · split
        · exact Or.inr (Or.inr (Or.inr (Or.inl rfl)))
        · exact Or.inr (Or.inr (Or.inr (Or.inl rfl)))
        · exact Or.inr (Or.inr (handleDoc_shapes tableId _ wh))

theorem mergeRowUpdate_id (r x : Row) : (mergeRowUpdate r x).id = x.id := by
  unfold mergeRowUpdate
  by_cases hx : (x.id == r.id) = true
  · rw [if_pos hx]
  · rw [if_neg hx]

theorem mergeRowUpdate_idem (r x : Row) :
    mergeRowUpdate r (mergeRowUpdate r x) = mergeRowUpdate r x := by
  unfold mergeRowUpdate
  by_cases hx : (x.id == r.id) = true
  · rw [if_pos hx]
    rw [if_pos hx]
  · rw [if_neg hx, if_neg hx]

theorem mergeRowUpdate_self (r : Row) : mergeRowUpdate r r = r := by
  unfold mergeRowUpdate
  rw [if_pos (beq_self_eq_true r.id)]

theorem mergeRowUpdate_of_ne (r x : Row) (h : (x.id == r.id) = false) :
    mergeRowUpdate r x = x := by
  unfold mergeRowUpdate
  rw [if_neg (by rw [h]; exact Bool.false_ne_true)]

theorem mergeApply_any (r : Row) (t : Table) :
    (mergeApply r t).any (fun x => x.id == r.id) = true := by
  unfold mergeApply
  by_cases h : t.any (fun x => x.id == r.id) = true
  · rw [if_pos h, List.any_map]
    have hcomp : ((fun x : Row => x.id == r.id) ∘ mergeRowUpdate r) =
        fun x : Row => x.id == r.id := by
      funext x
      simp only [Function.comp_apply, mergeRowUpdate_id]
    rw [hcomp]
    exact h
  · rw [if_neg h, List.any_append]
    simp

/-- Claim C6: the MERGE built by run_bq_merge is an idempotent upsert:
applying the same create/update event twice leaves the table exactly as
applying it once. -/
theorem C6_upsert_idempotent (r : Row) (t : Table) :
    mergeApply r (mergeApply r t) = mergeApply r t := by
  have hany := mergeApply_any r t
  by_cases h : t.any (fun x => x.id == r.id) = true
  · have h1 : mergeApply r t = t.map (mergeRowUpdate r) := by
      unfold mergeApply
      rw [if_pos h]
    rw [h1] at hany ⊢
    unfold mergeApply
    rw [if_pos hany, List.map_map]
    exact List.map_congr_left (fun a _ => mergeRowUpdate_idem r a)
  · have h1 : mergeApply r t = t ++ [r] := by
      unfold mergeApply
      rw [if_neg h]
    rw [h1] at hany ⊢
    unfold mergeApply
    rw [if_pos hany, List.map_append]
    have hf : t.any (fun x => x.id == r.id) = false := by
      cases ht : t.any (fun x => x.id == r.id) with
      | false => rfl
      | true => exact absurd ht h
    have hmap : t.map (mergeRowUpdate r) = t := by
      have h3 : ∀ x ∈ t, mergeRowUpdate r x = x := by
        intro x hx
        apply mergeRowUpdate_of_ne
        have h4 := (List.any_eq_false.mp hf) x hx
        cases hb : (x.id == r.id) with
        | false => rfl
        | true => exact absurd hb h4
      calc t.map (mergeRowUpdate r) = t.map id := List.map_congr_left h3
        _ = t := List.map_id t
    rw [hmap]
    simp [mergeRowUpdate_self]

/-- Claim C7: the DELETE built by run_bq_delete removes every row carrying
the key; deleting an absent key is a no-op that succeeds (the handler
acknowledges with 204), and a duplicate delete has no further effect. -/
theorem C7_delete_semantics (tableId : String) (pk : Int) (t : Table) :
    (∀ x ∈ deleteApply pk t, (x.id == pk) = false)
    ∧ ((∀ x ∈ t, (x.id == pk) = false) → deleteApply pk t = t)
    ∧ deleteApply pk (deleteApply pk t) = deleteApply pk t
    ∧ (run_bq_delete tableId (Json.obj [("id", Json.num pk)])
        (fun _ => Except.ok ())).status = 204 := by
  refine ⟨?_, ?_, ?_, rfl⟩
  · intro x hx
    have h := List.of_mem_filter hx
    cases hb : (x.id == pk) with
    | false => rfl
    | true => rw [hb] at h; exact absurd h (by simp)
  · intro h
    apply List.filter_eq_self.mpr
    intro x hx
    rw [h x hx]
    rfl
  · unfold deleteApply
    rw [List.filter_filter]
    apply List.filter_congr
    intro x hx
    cases hb : (x.id == pk) <;> rfl

/-- Claim C7 witness: deleting key 1 from a table holding only key 2 is a
no-op, and the handler acknowledges the delete with 204. -/
theorem C7_delete_semantics_witness :
    deleteApply 1 [Row.mk 2 "x" "y" "z"] = [Row.mk 2 "x" "y" "z"]
    ∧ (run_bq_delete "p.my_bq_dataset.customers"
        (Json.obj [("id", Json.num 1)]) (fun _ => Except.ok ())).status = 204 := by
  have h := C7_delete_semantics "p.my_bq_dataset.customers" 1 [Row.mk 2 "x" "y" "z"]
  exact ⟨h.2.1 (by decide), h.2.2.2⟩

theorem index_valid_env (tableId : String) (e : List (String × Json))
    (decoded : DecodeOutcome) (wh : String → Except WhErr Unit)
    (hg : envInvalid (some e) = false) :
    index tableId true (some e) decoded wh =
      match decoded with
      | .decodeErr => ⟨200, "Message processing error", []⟩
      | .jsonErr => ⟨200, "Message processing error", []⟩
      | .ok fields => handleDoc tableId fields wh := by
  have hg' : (e.isEmpty || (lookupField e "message").isNone) = false := hg
  simp only [index]
  rw [if_neg (by simp), if_neg (by simp [hg'])]

theorem index_ok_reduce (tableId : String) (e : List (String × Json))
    (fields : List (String × Json)) (wh : String → Except WhErr Unit)
    (hg : envInvalid (some e) = false) :
    index tableId true (some e) (DecodeOutcome.ok fields) wh =
      handleDoc tableId fields wh := by
  rw [index_valid_env tableId e (DecodeOutcome.ok fields) wh hg]

theorem procShapes_status_ne_400 (r : HandlerResult) (h : procShapes r) :
    r.status ≠ 400 := by
  unfold procShapes at h
  rcases h with h | h | ⟨q, h⟩ | ⟨q, h⟩ <;> rw [h] <;> simp

/-- Claim C1 (refuted): run_bq_delete builds its query by interpolating the
row's id value directly into the SQL text; the row value "1 OR TRUE" turns
the WHERE clause into `id = 1 OR TRUE`, which matches every row — the data
alters the structure of the executed query, so the statement is not
parameterized. -/
theorem C1_sql_interpolation :
    run_bq_delete "p.my_bq_dataset.customers"
      (Json.obj [("id", Json.str "1 OR TRUE")]) (fun _ => Except.ok ())
      = ⟨204, "",
          [Effect.query
            "\n        DELETE FROM `p.my_bq_dataset.customers`\n        WHERE id = 1 OR TRUE\n    "]⟩ := by
  rfl

/-- Claim C2 counterexample: a delete event whose warehouse call fails with
a transient (retryable) error — a message the claim says must receive no
success status so the transport redelivers it — is answered with 200 and a
body, the transport's do-not-retry signal. -/
theorem C2_counterexample :
    index "p.my_bq_dataset.customers" true (some sampleEnv)
      (DecodeOutcome.ok sampleDeleteDoc) (fun _ => Except.error WhErr.transient)
      = ⟨200, "Message processing error",
          [Effect.query (deleteQueryStr "p.my_bq_dataset.customers" (Json.num 1))]⟩ := by
  rfl

theorem resultShapes_status (r : HandlerResult) (h : resultShapes r) :
    r.status = 204 ∧ r.body = "" ∨ r.status = 400 ∧ r.body ≠ ""
      ∨ r.status = 200 ∧ r.body ≠ "" := by
  unfold resultShapes procShapes at h
  rcases h with h | h | h | h | ⟨q, h⟩ | ⟨q, h⟩ <;> rw [h] <;> simp

theorem indexAnyBody_none_restriction (tableId : String) (clientOk : Bool)
    (decoded : DecodeOutcome) (wh : String → Except WhErr Unit) :
    indexAnyBody tableId clientOk none decoded wh
      = HttpOutcome.resp (index tableId clientOk none decoded wh) := by
  cases clientOk <;> rfl

theorem indexAnyBody_obj_restriction (tableId : String) (clientOk : Bool)
    (e : List (String × Json)) (decoded : DecodeOutcome)
    (wh : String → Except WhErr Unit) :
    indexAnyBody tableId clientOk (some (Json.obj e)) decoded wh
      = HttpOutcome.resp (index tableId clientOk (some e) decoded wh) := by
  cases clientOk with
  | false => rfl
  | true =>
    by_cases hemp : e.isEmpty = true
    · simp [indexAnyBody, index, pyInMessage, Json.truthy, hemp]
    · cases hml : lookupField e "message" with
      | none => simp [indexAnyBody, index, pyInMessage, Json.truthy, hemp, hml]
      | some m =>
        cases decoded <;>
          simp [indexAnyBody, index, pyInMessage, Json.truthy, hemp, hml]

theorem indexAnyBody_shapes (tableId : String) (clientOk : Bool)
    (env : Option Json) (decoded : DecodeOutcome)
    (wh : String → Except WhErr Unit) :
    indexAnyBody tableId clientOk env decoded wh = HttpOutcome.uncaught
    ∨ ∃ r, indexAnyBody tableId clientOk env decoded wh = HttpOutcome.resp r
        ∧ resultShapes r := by
  unfold indexAnyBody
  split
  · exact Or.inr ⟨_, rfl, Or.inl rfl⟩
  · split
    · exact Or.inr ⟨_, rfl, Or.inr (Or.inl rfl)⟩
    · split
      · exact Or.inr ⟨_, rfl, Or.inr (Or.inl rfl)⟩
      · split
        · exact Or.inl rfl
        · exact Or.inr ⟨_, rfl, Or.inr (Or.inl rfl)⟩
        · split
          · split
            · exact Or.inr ⟨_, rfl, Or.inr (Or.inr (Or.inr (Or.inl rfl)))⟩
            · exact Or.inr ⟨_, rfl, Or.inr (Or.inr (Or.inr (Or.inl rfl)))⟩
            · exact Or.inr ⟨_, rfl, Or.inr (Or.inr (handleDoc_shapes tableId _ wh))⟩
          · exact Or.inr ⟨_, rfl, Or.inr (Or.inr (Or.inr (Or.inl rfl)))⟩

theorem indexAnyBody_uncaught_iff (tableId : String) (clientOk : Bool)
    (env : Option Json) (decoded : DecodeOutcome)
    (wh : String → Except WhErr Unit) :
    indexAnyBody tableId clientOk env decoded wh = HttpOutcome.uncaught
      ↔ clientOk = true ∧ envRaises env = true := by
  cases clientOk with
  | false => simp [indexAnyBody]
  | true =>
    cases env with
    | none => simp [indexAnyBody, envRaises]
    | some v =>
      cases v with
      | null => simp [indexAnyBody, envRaises, Json.truthy, pyInMessage]
      | bool b =>
        cases b <;> simp [indexAnyBody, envRaises, Json.truthy, pyInMessage]
      | num n =>
        by_cases hn : (n == 0) = true <;>
          simp [indexAnyBody, envRaises, Json.truthy, pyInMessage, hn]
      | str s =>
        by_cases hs : (s == "") = true
        · simp [indexAnyBody, envRaises, Json.truthy, pyInMessage, hs]
        · by_cases hc : strContainsMessage s = true <;>
            simp [indexAnyBody, envRaises, Json.truthy, pyInMessage, hs, hc]
      | arr xs =>
        by_cases hx : xs.isEmpty = true
        · simp [indexAnyBody, envRaises, Json.truthy, pyInMessage, hx]
        · by_cases ha : (xs.any isMessageStr) = true <;>
            simp [indexAnyBody, envRaises, Json.truthy, pyInMessage, hx, ha]
      | obj fs =>
        by_cases hemp : fs.isEmpty = true
        · simp [indexAnyBody, envRaises, Json.truthy, pyInMessage, hemp]
        · cases hml : lookupField fs "message" with
          | none =>
            simp [indexAnyBody, envRaises, Json.truthy, pyInMessage, hemp, hml]
          | some m =>
            cases decoded <;>
              simp [indexAnyBody, envRaises, Json.truthy, pyInMessage, hemp, hml]

theorem indexAnyBody_400_iff (tableId : String) (clientOk : Bool)
    (env : Option Json) (decoded : DecodeOutcome)
    (wh : String → Except WhErr Unit) :
    (∃ r, indexAnyBody tableId clientOk env decoded wh = HttpOutcome.resp r
        ∧ r.status = 400)
      ↔ clientOk = true ∧ envBad env = true := by
  cases clientOk with
  | false => simp [indexAnyBody]
  | true =>
    cases env with
    | none => simp [indexAnyBody, envBad]
    | some v =>
      cases v with
      | null => simp [indexAnyBody, envBad, Json.truthy, pyInMessage]
      | bool b =>
        cases b <;> simp [indexAnyBody, envBad, Json.truthy, pyInMessage]
      | num n =>
        by_cases hn : (n == 0) = true <;>
          simp [indexAnyBody, envBad, Json.truthy, pyInMessage, hn]
      | str s =>
        by_cases hs : (s == "") = true
        · simp [indexAnyBody, envBad, Json.truthy, pyInMessage, hs]
        · by_cases hc : strContainsMessage s = true <;>
            simp [indexAnyBody, envBad, Json.truthy, pyInMessage, hs, hc]
      | arr xs =>
        by_cases hx : xs.isEmpty = true
        · simp [indexAnyBody, envBad, Json.truthy, pyInMessage, hx]
        · by_cases ha : (xs.any isMessageStr) = true <;>
            simp [indexAnyBody, envBad, Json.truthy, pyInMessage, hx, ha]
      | obj fs =>
        by_cases hemp : fs.isEmpty = true
        · simp [indexAnyBody, envBad, Json.truthy, pyInMessage, hemp]
        · cases hml : lookupField fs "message" with
          | none =>
            simp [indexAnyBody, envBad, Json.truthy, pyInMessage, hemp, hml]
          | some m =>
            have hs := procShapes_status_ne_400 _ (handleDoc_shapes tableId
              (match decoded with | .ok fields => fields | _ => []) wh)
            cases decoded with
            | decodeErr =>
              simp [indexAnyBody, envBad, Json.truthy, pyInMessage, hemp, hml]
            | jsonErr =>
              simp [indexAnyBody, envBad, Json.truthy, pyInMessage, hemp, hml]
            | ok fields =>
              simpa [indexAnyBody, envBad, Json.truthy, pyInMessage, hemp, hml]
                using hs

/-- Claim C2 as amended: the handler answers 400 exactly when the client is
initialized and the body is missing, falsy, or a truthy object/string/list
without "message" (as key, substring, or element respectively); an
exception escapes the handler (the server answers 500) exactly when the
client is initialized and the body is a truthy number or boolean, whose
line-33 membership test raises outside the try block; every other outcome
is a response that is 204 with an empty body on success or intentional
ignore, 400 with a non-empty body, or 200 with a non-empty body on every
caught failure — including transient, retryable warehouse errors, which
are thereby acknowledged instead of left for redelivery (see the
counterexample). -/
theorem C2_status_mapping (tableId : String) (clientOk : Bool)
    (env : Option Json) (decoded : DecodeOutcome)
    (wh : String → Except WhErr Unit) :
    (indexAnyBody tableId clientOk env decoded wh = HttpOutcome.uncaught
      ↔ clientOk = true ∧ envRaises env = true)
    ∧ ((∃ r, indexAnyBody tableId clientOk env decoded wh = HttpOutcome.resp r
        ∧ r.status = 400) ↔ clientOk = true ∧ envBad env = true)
    ∧ anyShapes (indexAnyBody tableId clientOk env decoded wh) := by
  refine ⟨indexAnyBody_uncaught_iff tableId clientOk env decoded wh,
    indexAnyBody_400_iff tableId clientOk env decoded wh, ?_⟩
  rcases indexAnyBody_shapes tableId clientOk env decoded wh with h | ⟨r, hr, hsh⟩
  · exact Or.inl h
  · exact Or.inr ⟨r, hr, resultShapes_status r hsh⟩

/-- Claim C3 counterexample: the spec scenario document whose payload is
missing the op key is acknowledged with 204 and the warehouse is untouched,
but the effect list is empty — no dead-letter record is written anywhere,
because the source has no dead-letter sink. -/
theorem C3_counterexample :
    index "p.my_bq_dataset.customers" true (some sampleEnv)
      (DecodeOutcome.ok missingOpDoc) (fun _ => Except.ok ())
      = ⟨204, "", []⟩ := by
  rfl

/-- Claim C3 as amended: an event with a missing or falsy op, or missing
required row data for its operation, is acknowledged with 204 and never
retried, with the warehouse untouched; no dead-letter record is produced
(the handler only logs and drops the event). -/
theorem C3_missing_data_ignored (tableId : String)
    (e fields pf : List (String × Json)) (wh : String → Except WhErr Unit)
    (he : envInvalid (some e) = false)
    (hp : lookupField fields "payload" = some (Json.obj pf))
    (hmiss : truthyO (lookupField pf "op") = false
      ∨ truthyO (payloadData pf) = false) :
    index tableId true (some e) (DecodeOutcome.ok fields) wh = ⟨204, "", []⟩ := by
  have hguard : (!truthyO (payloadData pf) || !truthyO (lookupField pf "op")) = true := by
    rcases hmiss with h | h
    · rw [h]
      simp
    · rw [h]
      simp
  rw [index_ok_reduce tableId e fields wh he]
  simp only [handleDoc, hp]
  simp only [handlePayload]
  rw [if_pos hguard]

/-- Claim C3 witness: a create event with op "c" but no after image is
acknowledged with 204, no query and no dead-letter record. -/
theorem C3_missing_data_ignored_witness :
    index "p.my_bq_dataset.customers" true (some sampleEnv)
      (DecodeOutcome.ok [("payload", Json.obj [("op", Json.str "c")])])
      (fun _ => Except.ok ()) = ⟨204, "", []⟩ :=
  C3_missing_data_ignored "p.my_bq_dataset.customers" sampleEnv
    [("payload", Json.obj [("op", Json.str "c")])] [("op", Json.str "c")]
    (fun _ => Except.ok ()) rfl rfl (Or.inr rfl)

/-- Claim C4 counterexample: an unexpected internal error raised by the
warehouse call is caught by the blanket exception handler, which answers 200
with a body — the transport's do-not-retry signal — so the message is
acknowledged rather than redelivered. -/
theorem C4_counterexample :
    index "p.my_bq_dataset.customers" true (some sampleEnv)
      (DecodeOutcome.ok sampleCreateDoc) (fun _ => Except.error WhErr.internal)
      = ⟨200, "Message processing error",
          [Effect.query (mergeQueryStr "p.my_bq_dataset.customers" (Json.num 1)
            (Json.str "A") (Json.str "B") (Json.str "a@b.com"))]⟩ := by
  rfl

theorem run_bq_delete_fail (tableId : String) (d : Json) (k : WhErr) :
    run_bq_delete tableId d (fun _ => Except.error k)
      = ⟨200, "Message processing error", []⟩
    ∨ ∃ q, run_bq_delete tableId d (fun _ => Except.error k)
        = ⟨200, "Message processing error", [Effect.query q]⟩ := by
  unfold run_bq_delete
  split
  · exact Or.inl rfl
  · exact Or.inr ⟨_, rfl⟩

theorem run_bq_merge_fail (tableId : String) (d : Json) (k : WhErr) :
    run_bq_merge tableId d (fun _ => Except.error k)
      = ⟨200, "Message processing error", []⟩
    ∨ ∃ q, run_bq_merge tableId d (fun _ => Except.error k)
        = ⟨200, "Message processing error", [Effect.query q]⟩ := by
  unfold run_bq_merge
  split
  · exact Or.inr ⟨_, rfl⟩
  · exact Or.inl rfl

theorem handlePayload_fail (tableId : String) (pf : List (String × Json))
    (k : WhErr) :
    handlePayload tableId pf (fun _ => Except.error k) = ⟨204, "", []⟩
    ∨ handlePayload tableId pf (fun _ => Except.error k)
        = ⟨200, "Message processing error", []⟩
    ∨ ∃ q, handlePayload tableId pf (fun _ => Except.error k)
        = ⟨200, "Message processing error", [Effect.query q]⟩ := by
  unfold handlePayload
  split
  · exact Or.inl rfl
  · split
    · exact Or.inr (run_bq_delete_fail tableId _ k)
    · exact Or.inr (run_bq_merge_fail tableId _ k)

theorem handleDoc_fail (tableId : String) (fields : List (String × Json))
    (k : WhErr) :
    handleDoc tableId fields (fun _ => Except.error k) = ⟨204, "", []⟩
    ∨ handleDoc tableId fields (fun _ => Except.error k)
        = ⟨200, "Message processing error", []⟩
    ∨ ∃ q, handleDoc tableId fields (fun _ => Except.error k)
        = ⟨200, "Message processing error", [Effect.query q]⟩ := by
  unfold handleDoc
  split
  · exact Or.inl rfl
  · exact handlePayload_fail tableId _ k
  · exact Or.inr (Or.inl rfl)

theorem indexAnyBody_fail_shapes (tableId : String) (clientOk : Bool)
    (env : Option Json) (decoded : DecodeOutcome) (k : WhErr) :
    indexAnyBody tableId clientOk env decoded (fun _ => Except.error k)
      = HttpOutcome.uncaught
    ∨ ∃ r, indexAnyBody tableId clientOk env decoded (fun _ => Except.error k)
        = HttpOutcome.resp r
        ∧ (r.effects = []
          ∨ (r.status = 200 ∧ r.body = "Message processing error")) := by
  unfold indexAnyBody
  split
  · exact Or.inr ⟨_, rfl, Or.inl rfl⟩
  · split
    · exact Or.inr ⟨_, rfl, Or.inl rfl⟩
    · split
      · exact Or.inr ⟨_, rfl, Or.inl rfl⟩
      · split
        · exact Or.inl rfl
        · exact Or.inr ⟨_, rfl, Or.inl rfl⟩
        · split
          · split
            · exact Or.inr ⟨_, rfl, Or.inl rfl⟩
            · exact Or.inr ⟨_, rfl, Or.inl rfl⟩
            · rcases handleDoc_fail tableId _ k with h | h | ⟨q, h⟩
              · exact Or.inr ⟨_, rfl, Or.inl (by rw [h])⟩
              · exact Or.inr ⟨_, rfl, Or.inl (by rw [h])⟩
              · exact Or.inr ⟨_, rfl, Or.inr ⟨by rw [h], by rw [h]⟩⟩
          · exact Or.inr ⟨_, rfl, Or.inl rfl⟩

/-- Claim C4 as amended: an unexpected error raised inside the try block —
in particular any failure of the warehouse call, whatever its class — is
caught by the blanket handler and acknowledged with 200 "Message processing
error", never left for redelivery: every request whose body does not fall
on the pre-try raise path (truthy number/boolean bodies, whose line-33
membership test escapes as a 500) receives a definite response, and
whenever the warehouse call fails the response carrying the attempted query
is 200 with that body. -/
theorem C4_internal_error_acked (tableId : String) (clientOk : Bool)
    (env : Option Json) (decoded : DecodeOutcome)
    (wh : String → Except WhErr Unit) (k : WhErr) :
    (envRaises env = false →
      ∃ r, indexAnyBody tableId clientOk env decoded wh = HttpOutcome.resp r)
    ∧ (∀ r, indexAnyBody tableId clientOk env decoded (fun _ => Except.error k)
          = HttpOutcome.resp r → r.effects ≠ [] →
        r.status = 200 ∧ r.body = "Message processing error") := by
  constructor
  · intro hnr
    rcases indexAnyBody_shapes tableId clientOk env decoded wh with h | ⟨r, hr, h1⟩
    · have h2 := ((indexAnyBody_uncaught_iff tableId clientOk env decoded wh).mp h).2
      rw [hnr] at h2
      exact absurd h2 (by simp)
    · exact ⟨r, hr⟩
  · intro r hr hne
    rcases indexAnyBody_fail_shapes tableId clientOk env decoded k
      with h | ⟨rr, hrr, hc⟩
    · rw [h] at hr
      exact HttpOutcome.noConfusion hr
    · rw [hrr] at hr
      injection hr with h2
      rw [h2] at hc
      rcases hc with hc | hc
      · exact absurd hc hne
      · exact hc

/-- Claim C4 witness: the section-8 create event against an internally
failing warehouse reaches the failing-call conclusion — the handler
responds (does not raise), and the response with the attempted query is
200 "Message processing error". -/
theorem C4_internal_error_acked_witness :
    (∃ r, indexAnyBody "p.my_bq_dataset.customers" true
        (some (Json.obj sampleEnv)) (DecodeOutcome.ok sampleCreateDoc)
        (fun _ => Except.error WhErr.internal) = HttpOutcome.resp r)
    ∧ (⟨200, "Message processing error",
        [Effect.query (mergeQueryStr "p.my_bq_dataset.customers" (Json.num 1)
          (Json.str "A") (Json.str "B") (Json.str "a@b.com"))]⟩
        : HandlerResult).status = 200 := by
  have h := C4_internal_error_acked "p.my_bq_dataset.customers" true
    (some (Json.obj sampleEnv)) (DecodeOutcome.ok sampleCreateDoc)
    (fun _ => Except.error WhErr.internal) WhErr.internal
  exact ⟨h.1 rfl,
    (h.2 ⟨200, "Message processing error",
      [Effect.query (mergeQueryStr "p.my_bq_dataset.customers" (Json.num 1)
        (Json.str "A") (Json.str "B") (Json.str "a@b.com"))]⟩ rfl
      (by simp)).1⟩

/-- Claim C5 counterexample: a create event whose warehouse call fails
transiently is not retried — exactly one query is issued — and the handler
immediately answers 200, acknowledging the message instead of backing off
and retrying; no dead-letter record is written either. -/
theorem C5_counterexample :
    index "p.my_bq_dataset.customers" true (some sampleEnv)
      (DecodeOutcome.ok sampleCreateDoc) (fun _ => Except.error WhErr.transient)
      = ⟨200, "Message processing error",
          [Effect.query (mergeQueryStr "p.my_bq_dataset.customers" (Json.num 1)
            (Json.str "A") (Json.str "B") (Json.str "a@b.com"))]⟩ := by
  rfl

/-- Claim C5 as amended: there is no retry and no dead-lettering at all: on
every request the handler issues at most one warehouse query and writes no
dead-letter record; a transient failure is acknowledged at once with 200
(see the counterexample) instead of being retried with backoff. -/
theorem C5_no_retry_no_deadletter (tableId : String) (clientOk : Bool)
    (env : Option (List (String × Json))) (decoded : DecodeOutcome)
    (wh : String → Except WhErr Unit) :
    (index tableId clientOk env decoded wh).effects.length ≤ 1
    ∧ (index tableId clientOk env decoded wh).effects.all
        (fun eff => !isDeadLetter eff) = true := by
  have h := index_shapes tableId clientOk env decoded wh
  unfold resultShapes procShapes at h
  rcases h with h | h | h | h | ⟨q, h⟩ | ⟨q, h⟩ <;> rw [h] <;>
    exact ⟨by simp, by simp [isDeadLetter]⟩

/-- Claim C9: a successfully decoded document with no "payload" key is
treated as informational: the handler acknowledges with 204, an empty body,
and performs no effect at all — nothing is forwarded to the warehouse. -/
theorem C9_no_payload_ignored (tableId : String)
    (e fields : List (String × Json)) (wh : String → Except WhErr Unit)
    (he : envInvalid (some e) = false)
    (hp : lookupField fields "payload" = none) :
    index tableId true (some e) (DecodeOutcome.ok fields) wh = ⟨204, "", []⟩ := by
  rw [index_ok_reduce tableId e fields wh he]
  simp only [handleDoc, hp]

/-- Claim C9 witness: a subscription-probe document without a payload key is
acknowledged with 204 and no effects. -/
theorem C9_no_payload_ignored_witness :
    index "p.my_bq_dataset.customers" true (some sampleEnv)
      (DecodeOutcome.ok [("probe", Json.str "s")]) (fun _ => Except.ok ())
      = ⟨204, "", []⟩ :=
  C9_no_payload_ignored "p.my_bq_dataset.customers" sampleEnv
    [("probe", Json.str "s")] (fun _ => Except.ok ()) rfl rfl

/-- Claim C10: when module initialization left bq_client = None, every
request — whatever its envelope, decode outcome or warehouse behavior — is
answered 200 "BigQuery client not initialized" with no warehouse query, so
the transport treats the message as handled and never redelivers it. -/
theorem C10_uninitialized_client (tableId : String)
    (env : Option (List (String × Json))) (decoded : DecodeOutcome)
    (wh : String → Except WhErr Unit) :
    index tableId false env decoded wh
      = ⟨200, "BigQuery client not initialized", []⟩ := by
  rfl

end CDC
